import Mathlib

set_option maxHeartbeats 1000000

/-!
Verification of the CV–job match-scoring engine of the AI-Talent-Matcher
backend.  The Python sources are shallowly embedded: dictionaries become
association lists, floats become exact rationals (with Python's `round`
modelled as round-half-to-even on the scaled rational), exceptions become
`Except`, and external collaborators (database, LLM agents, NLP tagger)
become explicit parameters.
-/

namespace TalentMatcher

/-- Python `dict.get(k, default)` on an association list (keys are unique in a
Python dict, so the first binding wins). -/
def dictGet (d : List (String × ℚ)) (k : String) (v : ℚ) : ℚ :=
  match d.find? (fun p => p.1 == k) with
  | some p => p.2
  | none => v

/-- Round-half-to-even to an integer: the semantics of Python's builtin
`round` on exact values. -/
def halfEvenRound (q : ℚ) : ℤ :=
  if q - ⌊q⌋ < 1/2 then ⌊q⌋
  else if 1/2 < q - ⌊q⌋ then ⌊q⌋ + 1
  else if Even ⌊q⌋ then ⌊q⌋ else ⌊q⌋ + 1

/-- Python `round(x, 3)` on exact rationals. -/
def round3 (q : ℚ) : ℚ := (halfEvenRound (q * 1000) : ℤ) / 1000

/-- `normalize_final_score` from
`backend/app/services/cv/match_service.py` lines 166–191: iterate over the
`weights` dict, take each component's score with default `0.0`, accumulate
`score * weight` and the weight itself, divide by the accumulated total
weight when positive (else `0.0`), and round to 3 decimals. -/
def normalize_final_score (component_scores weights : List (String × ℚ)) : ℚ :=
  let total_score := (weights.map (fun p => dictGet component_scores p.1 0 * p.2)).sum
  let total_weight := (weights.map (fun p => p.2)).sum
  let final_score := if 0 < total_weight then total_score / total_weight else 0
  round3 final_score

/-- The aggregation formula exactly as the specification words it: numerator
`Σ score[c]·weight[c]` over the components `c` present in `component_scores`,
denominator `Σ weight[c]` over those same present components, `0.0` when that
total weight is zero.  Written only to be compared against
`normalize_final_score`. -/
def aggregateSpecFormula (component_scores weights : List (String × ℚ)) : ℚ :=
  let num := (component_scores.map (fun p => p.2 * dictGet weights p.1 0)).sum
  let den := (component_scores.map (fun p => dictGet weights p.1 0)).sum
  if den = 0 then 0 else round3 (num / den)

theorem dictGet_mem_or_default (d : List (String × ℚ)) (k : String) (v : ℚ) :
    (∃ p ∈ d, dictGet d k v = p.2) ∨ dictGet d k v = v := by
  unfold dictGet
  cases h : d.find? (fun p => p.1 == k) with
  | none => exact Or.inr rfl
  | some p => exact Or.inl ⟨p, List.mem_of_find?_eq_some h, rfl⟩

theorem dictGet_nonneg (d : List (String × ℚ)) (k : String)
    (hd : ∀ p ∈ d, 0 ≤ p.2 ∧ p.2 ≤ 1) : 0 ≤ dictGet d k 0 := by
  rcases dictGet_mem_or_default d k 0 with ⟨p, hp, he⟩ | he
  · rw [he]; exact (hd p hp).1
  · rw [he]

theorem dictGet_le_one (d : List (String × ℚ)) (k : String)
    (hd : ∀ p ∈ d, 0 ≤ p.2 ∧ p.2 ≤ 1) : dictGet d k 0 ≤ 1 := by
  rcases dictGet_mem_or_default d k 0 with ⟨p, hp, he⟩ | he
  · rw [he]; exact (hd p hp).2
  · rw [he]; norm_num

theorem weighted_sum_bounds (cs ws : List (String × ℚ))
    (hs : ∀ p ∈ cs, 0 ≤ p.2 ∧ p.2 ≤ 1) (hw : ∀ p ∈ ws, 0 ≤ p.2) :
    0 ≤ (ws.map (fun p => dictGet cs p.1 0 * p.2)).sum ∧
      (ws.map (fun p => dictGet cs p.1 0 * p.2)).sum ≤ (ws.map (fun p => p.2)).sum := by
  induction ws with
  | nil => simp
  | cons a l ih =>
    have ha := hw a (List.mem_cons_self a l)
    have ihl := ih (fun p hp => hw p (List.mem_cons_of_mem a hp))
    have h0 : 0 ≤ dictGet cs a.1 0 := dictGet_nonneg cs a.1 hs
    have h1 : dictGet cs a.1 0 ≤ 1 := dictGet_le_one cs a.1 hs
    constructor
    · simp only [List.map_cons, List.sum_cons]
      have : 0 ≤ dictGet cs a.1 0 * a.2 := mul_nonneg h0 ha
      linarith [ihl.1]
    · simp only [List.map_cons, List.sum_cons]
      have h2 : dictGet cs a.1 0 * a.2 ≤ 1 * a.2 := mul_le_mul_of_nonneg_right h1 ha
      have h3 : dictGet cs a.1 0 * a.2 ≤ a.2 := by linarith
      linarith [ihl.2]

theorem floor_le_halfEvenRound (q : ℚ) : ⌊q⌋ ≤ halfEvenRound q := by
  unfold halfEvenRound
  split
  · exact le_refl _
  · split
    · omega
    · split <;> omega

theorem halfEvenRound_le_ceil (q : ℚ) : halfEvenRound q ≤ ⌈q⌉ := by
  have hfc : ⌊q⌋ ≤ ⌈q⌉ := Int.floor_le_ceil q
  have hlt : ¬ q - ⌊q⌋ < 1/2 → ⌊q⌋ + 1 ≤ ⌈q⌉ := by
    intro h
    have hq : (⌊q⌋ : ℚ) < q := by
      have h2 : (1:ℚ)/2 ≤ q - ⌊q⌋ := le_of_not_lt h
      linarith
    have := Int.lt_ceil.mpr hq
    omega
  unfold halfEvenRound
  split
  · exact hfc
  · rename_i h1
    split
    · exact hlt h1
    · split
      · exact hfc
      · exact hlt h1

theorem round3_nonneg (q : ℚ) (h : 0 ≤ q) : 0 ≤ round3 q := by
  unfold round3
  have h1 : (0:ℤ) ≤ ⌊q * 1000⌋ := Int.floor_nonneg.mpr (by positivity)
  have h2 : (0:ℤ) ≤ halfEvenRound (q * 1000) := le_trans h1 (floor_le_halfEvenRound _)
  have h3 : (0:ℚ) ≤ (halfEvenRound (q * 1000) : ℚ) := by exact_mod_cast h2
  positivity

theorem round3_le_one (q : ℚ) (h : q ≤ 1) : round3 q ≤ 1 := by
  unfold round3
  have h1 : ⌈q * 1000⌉ ≤ 1000 := Int.ceil_le.mpr (by push_cast; linarith)
  have h2 : halfEvenRound (q * 1000) ≤ 1000 := le_trans (halfEvenRound_le_ceil _) h1
  have h3 : ((halfEvenRound (q * 1000) : ℚ)) ≤ 1000 := by exact_mod_cast h2
  linarith

theorem round3_zero : round3 0 = 0 := by
  unfold round3 halfEvenRound
  norm_num

/-- Counterexample to C1 as frozen: one component present, two weighted
components.  The code divides by the total of ALL weights
(`1/2 + 1/2 = 1`), the claimed formula divides only by the weight of the
present component (`1/2`), so they disagree: `1/4 ≠ 1/2`. -/
theorem normalize_final_score_ne_spec_formula :
    normalize_final_score [("a", 1/2)] [("a", 1/2), ("b", 1/2)] = 1/4 ∧
      aggregateSpecFormula [("a", 1/2)] [("a", 1/2), ("b", 1/2)] = 1/2 ∧
      ((1:ℚ)/4) ≠ 1/2 := by
  refine ⟨?_, ?_, by norm_num⟩
  · norm_num +decide [normalize_final_score, dictGet, round3, halfEvenRound]
  · norm_num +decide [aggregateSpecFormula, dictGet, round3, halfEvenRound]

/-- C1 (amended): `normalize_final_score` equals
`round3( Σ_{c ∈ weights} score-or-0[c]·weight[c] / Σ_{c ∈ weights} weight[c] )`
— the denominator is the total of ALL entries of `weights`, a component
absent from `component_scores` contributing score `0.0`.  When every present
score is in `[0,1]` and every weight is nonnegative, the result is in `[0,1]`;
when the total weight is `0` (in particular when `weights` is empty) or when
`component_scores` is empty, the result is `0.0`. -/
theorem c1_normalize_final_score_amended (cs ws : List (String × ℚ))
    (hs : ∀ p ∈ cs, 0 ≤ p.2 ∧ p.2 ≤ 1) (hw : ∀ p ∈ ws, 0 ≤ p.2) :
    (0 < (ws.map (fun p => p.2)).sum →
        normalize_final_score cs ws =
          round3 ((ws.map (fun p => dictGet cs p.1 0 * p.2)).sum /
            (ws.map (fun p => p.2)).sum) ∧
        0 ≤ normalize_final_score cs ws ∧ normalize_final_score cs ws ≤ 1) ∧
      ((ws.map (fun p => p.2)).sum = 0 → normalize_final_score cs ws = 0) ∧
      (cs = [] → normalize_final_score cs ws = 0) ∧
      (ws = [] → normalize_final_score cs ws = 0) := by
  have hb := weighted_sum_bounds cs ws hs hw
  refine ⟨?_, ?_, ?_, ?_⟩
  · intro hpos
    have heq : normalize_final_score cs ws =
        round3 ((ws.map (fun p => dictGet cs p.1 0 * p.2)).sum /
          (ws.map (fun p => p.2)).sum) := by
      unfold normalize_final_score
      simp only [if_pos hpos]
    refine ⟨heq, ?_, ?_⟩
    · rw [heq]
      exact round3_nonneg _ (div_nonneg hb.1 (le_of_lt hpos))
    · rw [heq]
      exact round3_le_one _ ((div_le_one hpos).mpr hb.2)
  · intro hz
    simp only [normalize_final_score]
    rw [hz, if_neg (lt_irrefl 0), round3_zero]
  · intro hcs
    subst hcs
    simp only [normalize_final_score]
    have hzero : ∀ l : List (String × ℚ),
        (l.map (fun p => dictGet ([] : List (String × ℚ)) p.1 0 * p.2)).sum = 0 := by
      intro l
      induction l with
      | nil => simp
      | cons a t ih => simp [dictGet, ih]
    rw [hzero ws]
    by_cases hp : 0 < (ws.map (fun p => p.2)).sum
    · rw [if_pos hp, zero_div, round3_zero]
    · rw [if_neg hp, round3_zero]
  · intro hws
    subst hws
    simp only [normalize_final_score, List.map_nil, List.sum_nil]
    rw [if_neg (lt_irrefl 0), round3_zero]

/-- Witness for C1 at a concrete input: weights `{a: 1/2, b: 1/2}` and scores
`{a: 1/2}` satisfy the hypotheses, and the amended formula evaluates. -/
theorem c1_normalize_final_score_amended_witness :
    normalize_final_score [("a", 1/2)] [("a", 1/2), ("b", 1/2)] =
      round3 (((([("a", (1:ℚ)/2), ("b", 1/2)]).map
        (fun p => dictGet [("a", 1/2)] p.1 0 * p.2)).sum) /
        ((([("a", (1:ℚ)/2), ("b", 1/2)]).map (fun p => p.2)).sum)) := by
  have h := c1_normalize_final_score_amended [("a", 1/2)] [("a", 1/2), ("b", 1/2)]
    (by intro p hp; fin_cases hp; norm_num)
    (by intro p hp; fin_cases hp <;> norm_num)
  exact (h.1 (by norm_num)).1

/-! ### String primitives

Python string operations used by the matcher, modelled on character lists
(ASCII case mapping, as in the job-title data this code processes). -/

def upperChars : List Char := "ABCDEFGHIJKLMNOPQRSTUVWXYZ".data

def lowerChars : List Char := "abcdefghijklmnopqrstuvwxyz".data

/-- Translate one character through the parallel upper/lower tables. -/
def lookupLower : List Char → List Char → Char → Option Char
  | u :: us, l :: ls, c => if u == c then some l else lookupLower us ls c
  | _, _, _ => none

/-- ASCII `str.lower` on one character. -/
def charToLower (c : Char) : Char := (lookupLower upperChars lowerChars c).getD c

/-- Python `str.lower()`. -/
def strToLower (s : String) : String := String.mk (s.data.map charToLower)

/-- Python `str.strip()`. -/
def strTrim (s : String) : String :=
  String.mk (((s.data.dropWhile Char.isWhitespace).reverse.dropWhile Char.isWhitespace).reverse)

def charsStartWith : List Char → List Char → Bool
  | _, [] => true
  | [], _ :: _ => false
  | a :: as, b :: bs => a == b && charsStartWith as bs

def containsSubAux (p : List Char) : List Char → Bool
  | [] => charsStartWith [] p
  | c :: t => charsStartWith (c :: t) p || containsSubAux p t

/-- Python `pat in hay` on strings: `pat` occurs as a contiguous substring. -/
def strContainsSub (hay pat : String) : Bool := containsSubAux pat.data hay.data

def charListLe : List Char → List Char → Bool
  | [], _ => true
  | _ :: _, [] => false
  | a :: as, b :: bs => if a == b then charListLe as bs else decide (a < b)

/-- Python `<=` on strings (code-point lexicographic). -/
def strLe (a b : String) : Bool := charListLe a.data b.data

def insertSorted (s : String) : List String → List String
  | [] => [s]
  | t :: ts => if strLe s t then s :: t :: ts else t :: insertSorted s ts

/-- Python `sorted` on a list of strings (insertion sort). -/
def sortStrings : List String → List String
  | [] => []
  | s :: ss => insertSorted s (sortStrings ss)

theorem lookupLower_mem {us ls : List Char} {c r : Char}
    (h : lookupLower us ls c = some r) : r ∈ ls ∧ c ∈ us := by
  induction us generalizing ls with
  | nil => simp [lookupLower] at h
  | cons u ut ih =>
    cases ls with
    | nil => simp [lookupLower] at h
    | cons l lt =>
      by_cases hc : u == c
      · simp only [lookupLower, if_pos hc] at h
        have hcu : c = u := (eq_of_beq hc).symm
        have hrl : r = l := (Option.some.injEq l r |>.mp h).symm
        refine ⟨?_, ?_⟩
        · rw [hrl]; exact List.mem_cons_self l lt
        · rw [hcu]; exact List.mem_cons_self u ut
      · simp only [lookupLower, if_neg hc] at h
        have := @ih lt h
        exact ⟨List.mem_cons_of_mem l this.1, List.mem_cons_of_mem u this.2⟩

theorem lookupLower_of_lower {r : Char} (h : r ∈ lowerChars) :
    lookupLower upperChars lowerChars r = none := by
  fin_cases h <;> decide

theorem charToLower_idem (c : Char) : charToLower (charToLower c) = charToLower c := by
  unfold charToLower
  cases h : lookupLower upperChars lowerChars c with
  | none => simp [h]
  | some r =>
    simp only [h, Option.getD_some]
    rw [lookupLower_of_lower (lookupLower_mem h).1]
    rfl

theorem isWhitespace_charToLower (c : Char) :
    (charToLower c).isWhitespace = c.isWhitespace := by
  unfold charToLower
  cases h : lookupLower upperChars lowerChars c with
  | none => rfl
  | some r =>
    simp only [Option.getD_some]
    obtain ⟨hr, hc⟩ := lookupLower_mem h
    have h1 : r.isWhitespace = false := by fin_cases hr <;> decide
    have h2 : c.isWhitespace = false := by fin_cases hc <;> decide
    rw [h1, h2]

theorem map_charToLower_dropWhile (l : List Char) :
    (l.dropWhile Char.isWhitespace).map charToLower =
      (l.map charToLower).dropWhile Char.isWhitespace := by
  induction l with
  | nil => rfl
  | cons c t ih =>
    by_cases hw : c.isWhitespace
    · rw [List.map_cons, List.dropWhile_cons_of_pos (by simp [hw]),
        List.dropWhile_cons_of_pos (by simp [isWhitespace_charToLower, hw])]
      exact ih
    · rw [List.map_cons, List.dropWhile_cons_of_neg (by simp [hw]),
        List.dropWhile_cons_of_neg (by simp [isWhitespace_charToLower, hw]), List.map_cons]

theorem strToLower_strTrim (s : String) :
    strToLower (strTrim s) = strTrim (strToLower s) := by
  unfold strToLower strTrim
  simp only [List.map_reverse, map_charToLower_dropWhile]

theorem strToLower_idem (s : String) : strToLower (strToLower s) = strToLower s := by
  unfold strToLower
  simp only [List.map_map]
  congr 1
  exact List.map_congr_left (fun c _ => charToLower_idem c)

theorem strToLower_roleNorm (s : String) :
    strToLower (strTrim (strToLower s)) = strTrim (strToLower s) := by
  rw [strToLower_strTrim, strToLower_idem]

/-! ### Role-title fuzzy matcher

`match_roles_to_csv_titles` from
`backend/app/services/cv/ner_skill_matcher/ner_filter.py` lines 62–179.
The SpaCy part-of-speech extraction
`[token.text for token in nlp(s) if token.pos_ in [NOUN, PROPN, ADJ] and
len(token.text) > 2]` is an external component, passed in as `tag`. -/

/-- `common_words` from ner_filter.py lines 74–76. -/
def common_words : List String :=
  ["engineer", "developer", "manager", "specialist", "analyst",
   "consultant", "architect", "administrator", "coordinator", "director",
   "lead", "senior", "junior", "entry", "level", "principal", "staff"]

/-- Python `role_positions == sorted(role_positions)`. -/
def natSorted : List ℕ → Bool
  | [] => true
  | [_] => true
  | a :: b :: t => a ≤ b && natSorted (b :: t)

/-- One iteration of the `for title in csv_titles` loop (ner_filter.py lines
108–172), updating the `(best_match, best_score)` accumulator. -/
def titleStep (tag : String → List String) (role_lower : String)
    (all_role_words specific_role_words common_role_words : List String)
    (st : Option String × ℚ) (title : String) : Option String × ℚ :=
  let best_score := st.2
  let title_lower := strToLower title
  if strContainsSub title_lower role_lower then
    let score : ℚ := 100 - ((title_lower.length : ℚ) - (role_lower.length : ℚ))
    if best_score < score then (some title, score) else st
  else
    let all_title_words := tag title_lower
    let specific_title_words := all_title_words.filter (fun w => !(common_words.contains w))
    let common_title_words := all_title_words.filter (fun w => common_words.contains w)
    if specific_role_words.isEmpty = false then
      if specific_role_words.all (fun w => specific_title_words.contains w) then
        let role_word_list := all_role_words.filter (fun w => specific_role_words.contains w)
        let title_word_list := all_title_words.filter (fun w => specific_title_words.contains w)
        let order_score : ℚ :=
          if 2 ≤ role_word_list.length then
            let role_positions := (role_word_list.filter
              (fun w => title_word_list.contains w)).map
              (fun w => title_word_list.indexOf w)
            if role_positions.length = role_word_list.length ∧ natSorted role_positions
            then 20 else 0
          else 0
        let overlap_ratio : ℚ :=
          (specific_role_words.dedup.length : ℚ) /
            ((max specific_title_words.dedup.length 1 : ℕ) : ℚ)
        let length_penalty : ℚ :=
          max 0 (((all_title_words.length : ℚ) - (all_role_words.length : ℚ)) /
            ((max all_role_words.length 1 : ℕ) : ℚ))
        let score := overlap_ratio * 60 + order_score - length_penalty * 10
        if best_score < score ∧ 40 ≤ score then (some title, score) else st
      else st
    else
      if 2 ≤ common_role_words.length then
        let common_overlap := (common_role_words.dedup.filter
          (fun w => common_title_words.contains w)).length
        if 2 ≤ common_overlap then
          let score : ℚ := (common_overlap : ℚ) * 15
          if best_score < score then (some title, score) else st
        else st
      else st

/-- Processing of one element of `roles` (ner_filter.py lines 78–177).
A `none` role models Python `None`; it and the empty string fail the
`if not role` test and are skipped. -/
def processRole (tag : String → List String) (csv_titles : List String)
    (matched_titles : List String) (role : Option String) : List String :=
  match role with
  | none => matched_titles
  | some r =>
    if r = "" then matched_titles
    else
      let role_lower := strTrim (strToLower r)
      if csv_titles.contains role_lower then
        if matched_titles.contains role_lower then matched_titles
        else matched_titles ++ [role_lower]
      else
        let all_role_words := tag role_lower
        let specific_role_words := all_role_words.filter (fun w => !(common_words.contains w))
        let common_role_words := all_role_words.filter (fun w => common_words.contains w)
        if specific_role_words.isEmpty ∧ common_role_words.length < 2 then matched_titles
        else
          let st := csv_titles.foldl
            (titleStep tag role_lower all_role_words specific_role_words common_role_words)
            (none, 0)
          match st.1 with
          | some bm =>
            if 40 ≤ st.2 then
              if matched_titles.contains bm then matched_titles else matched_titles ++ [bm]
            else matched_titles
          | none => matched_titles

/-- `match_roles_to_csv_titles` (ner_filter.py lines 62–179).  The Python
`csv_titles` argument is a set; its unspecified iteration order is modelled
by passing it as a list. -/
def match_roles_to_csv_titles (tag : String → List String)
    (roles : List (Option String)) (csv_titles : List String) : List String :=
  roles.foldl (processRole tag csv_titles) []

theorem titleStep_keep_or_title (tag : String → List String) (rl : String)
    (arw srw crw : List String) (st : Option String × ℚ) (title : String) :
    titleStep tag rl arw srw crw st title = st ∨
      (titleStep tag rl arw srw crw st title).1 = some title := by
  simp only [titleStep]
  split_ifs <;> simp

theorem foldl_titleStep_best (tag : String → List String) (rl : String)
    (arw srw crw : List String) :
    ∀ (l : List String) (st : Option String × ℚ),
      (l.foldl (titleStep tag rl arw srw crw) st).1 = st.1 ∨
        ∃ t ∈ l, (l.foldl (titleStep tag rl arw srw crw) st).1 = some t := by
  intro l
  induction l with
  | nil => intro st; exact Or.inl rfl
  | cons a l ih =>
    intro st
    rw [List.foldl_cons]
    rcases titleStep_keep_or_title tag rl arw srw crw st a with h2 | h2
    · rw [h2]
      rcases ih st with h | ⟨t, ht, h⟩
      · exact Or.inl h
      · exact Or.inr ⟨t, List.mem_cons_of_mem a ht, h⟩
    · rcases ih (titleStep tag rl arw srw crw st a) with h | ⟨t, ht, h⟩
      · exact Or.inr ⟨a, List.mem_cons_self a l, h.trans h2⟩
      · exact Or.inr ⟨t, List.mem_cons_of_mem a ht, h⟩

theorem processRole_acc (tag : String → List String) (csv acc : List String)
    (role : Option String) :
    processRole tag csv acc role = acc ∨
      ∃ x, x ∈ csv ∧ x ∉ acc ∧ processRole tag csv acc role = acc ++ [x] := by
  match role with
  | none => exact Or.inl rfl
  | some r =>
    simp only [processRole]
    by_cases h0 : r = ""
    · simp [h0]
    rw [if_neg h0]
    by_cases h1 : csv.contains (strTrim (strToLower r))
    · rw [if_pos h1]
      by_cases h2 : acc.contains (strTrim (strToLower r))
      · rw [if_pos h2]; exact Or.inl rfl
      · rw [if_neg h2]
        refine Or.inr ⟨strTrim (strToLower r), ?_, ?_, rfl⟩
        · exact List.mem_of_elem_eq_true h1
        · intro hmem
          exact h2 (List.elem_eq_true_of_mem hmem)
    · rw [if_neg h1]
      by_cases h3 : ((tag (strTrim (strToLower r))).filter
          (fun w => !(common_words.contains w))).isEmpty ∧
          ((tag (strTrim (strToLower r))).filter
            (fun w => common_words.contains w)).length < 2
      · rw [if_pos h3]; exact Or.inl rfl
      · rw [if_neg h3]
        rcases hb : (csv.foldl (titleStep tag (strTrim (strToLower r))
            (tag (strTrim (strToLower r)))
            ((tag (strTrim (strToLower r))).filter (fun w => !(common_words.contains w)))
            ((tag (strTrim (strToLower r))).filter (fun w => common_words.contains w)))
            (none, 0)).1 with _ | bm
        · simp [hb]
        · simp only [hb]
          rcases foldl_titleStep_best tag (strTrim (strToLower r))
              (tag (strTrim (strToLower r)))
              ((tag (strTrim (strToLower r))).filter (fun w => !(common_words.contains w)))
              ((tag (strTrim (strToLower r))).filter (fun w => common_words.contains w))
              csv (none, 0) with hbest | ⟨t, ht, hbest⟩
          · rw [hb] at hbest; exact absurd hbest (by simp)
          · rw [hb] at hbest
            have hbm : bm = t := by injection hbest
            subst hbm
            by_cases h4 : 40 ≤ (csv.foldl (titleStep tag (strTrim (strToLower r))
                (tag (strTrim (strToLower r)))
                ((tag (strTrim (strToLower r))).filter (fun w => !(common_words.contains w)))
                ((tag (strTrim (strToLower r))).filter (fun w => common_words.contains w)))
                (none, 0)).2
            · rw [if_pos h4]
              by_cases h5 : acc.contains bm
              · rw [if_pos h5]; exact Or.inl rfl
              · rw [if_neg h5]
                exact Or.inr ⟨bm, ht, fun hmem => h5 (List.elem_eq_true_of_mem hmem), rfl⟩
            · rw [if_neg h4]; exact Or.inl rfl

theorem foldl_processRole_inv (tag : String → List String) (csv : List String) :
    ∀ (rs : List (Option String)) (acc : List String),
      acc.Nodup → (∀ t ∈ acc, t ∈ csv) →
      (rs.foldl (processRole tag csv) acc).Nodup ∧
        ∀ t ∈ rs.foldl (processRole tag csv) acc, t ∈ csv := by
  intro rs
  induction rs with
  | nil => intro acc h1 h2; exact ⟨h1, h2⟩
  | cons r rs ih =>
    intro acc h1 h2
    rw [List.foldl_cons]
    rcases processRole_acc tag csv acc r with h | ⟨x, hx1, hx2, hx3⟩
    · rw [h]; exact ih acc h1 h2
    · rw [hx3]
      refine ih (acc ++ [x]) ?_ ?_
      · simp [List.nodup_append, h1, hx2]
      · intro t ht
        rcases List.mem_append.mp ht with h | h
        · exact h2 t h
        · rw [List.mem_singleton.mp h]; exact hx1

/-- C10: every title returned by `match_roles_to_csv_titles` is an element of
the input vocabulary, the returned list has no duplicates, and `None` or
empty role strings are skipped (removing them anywhere in the role list does
not change the result). -/
theorem c10_match_roles_to_csv_titles_wellformed (tag : String → List String)
    (roles : List (Option String)) (csv_titles : List String) :
    ((match_roles_to_csv_titles tag roles csv_titles).Nodup ∧
      ∀ t ∈ match_roles_to_csv_titles tag roles csv_titles, t ∈ csv_titles) ∧
      (∀ pre post : List (Option String),
        match_roles_to_csv_titles tag (pre ++ none :: post) csv_titles =
          match_roles_to_csv_titles tag (pre ++ post) csv_titles ∧
        match_roles_to_csv_titles tag (pre ++ some "" :: post) csv_titles =
          match_roles_to_csv_titles tag (pre ++ post) csv_titles) := by
  constructor
  · exact foldl_processRole_inv tag csv_titles roles [] List.nodup_nil (by simp)
  · intro pre post
    constructor
    · unfold match_roles_to_csv_titles
      rw [List.foldl_append, List.foldl_append, List.foldl_cons]
      rfl
    · unfold match_roles_to_csv_titles
      rw [List.foldl_append, List.foldl_append, List.foldl_cons]
      have : processRole tag csv_titles (pre.foldl (processRole tag csv_titles) []) (some "") =
          pre.foldl (processRole tag csv_titles) [] := by
        simp [processRole]
      rw [this]

/-- Witness for C10 at a concrete tagger, role list (with a `None` and an
empty role) and vocabulary. -/
theorem c10_match_roles_wellformed_witness :
    (match_roles_to_csv_titles c6Tag [some "design", none, some ""] ["designer"]).Nodup :=
  (c10_match_roles_to_csv_titles_wellformed c6Tag [some "design", none, some ""]
    ["designer"]).1.1

/-- The "specific" significant words of a string: the tagger's output with
the generic title words removed (ner_filter.py lines 97, 126). -/
def specificWordsOf (tag : String → List String) (s : String) : List String :=
  (tag s).filter (fun w => !(common_words.contains w))

theorem titleStep_skips (tag : String → List String) (rl : String)
    (arw crw : List String) (title : String)
    (hsub : strContainsSub (strToLower title) rl = false)
    (hw : ∃ w ∈ specificWordsOf tag rl, w ∉ specificWordsOf tag (strToLower title))
    (st : Option String × ℚ) :
    titleStep tag rl arw (specificWordsOf tag rl) crw st title = st := by
  obtain ⟨w, hw1, hw2⟩ := hw
  have hne : (specificWordsOf tag rl).isEmpty = false := by
    cases h : specificWordsOf tag rl with
    | nil => rw [h] at hw1; simp at hw1
    | cons a l => rfl
  have hall : ¬ ((specificWordsOf tag rl).all (fun x =>
      ((tag (strToLower title)).filter (fun w => !(common_words.contains w))).contains x) = true) := by
    intro hc
    have := (List.all_eq_true.mp hc) w hw1
    exact hw2 (List.mem_of_elem_eq_true this)
  simp only [titleStep]
  rw [if_neg (by rw [hsub]; exact Bool.false_ne_true), if_pos hne, if_neg hall]

theorem foldl_best_ne (tag : String → List String) (rl : String)
    (arw srw crw : List String) (title : String)
    (hskip : ∀ st, titleStep tag rl arw srw crw st title = st) :
    ∀ (l : List String) (st : Option String × ℚ), st.1 ≠ some title →
      (l.foldl (titleStep tag rl arw srw crw) st).1 ≠ some title := by
  intro l
  induction l with
  | nil => intro st h; exact h
  | cons a l ih =>
    intro st h
    rw [List.foldl_cons]
    by_cases ha : a = title
    · subst ha; rw [hskip st]; exact ih st h
    · rcases titleStep_keep_or_title tag rl arw srw crw st a with h2 | h2
      · rw [h2]; exact ih st h
      · refine ih _ ?_
        rw [h2]
        intro hc
        exact ha (by injection hc)

/-- C6 (amended): the hard subset invariant holds for every title the role
does not occur in as a substring: if the (lowercased, stripped) role is not a
substring of the lowercased title and the role has a specific significant
word that is not among the title's specific words, then
`match_roles_to_csv_titles` never returns that title for that role.  (The
substring branch of the matcher, ner_filter.py lines 111–118, bypasses the
subset check, so the unrestricted claim fails.)  In particular "Frontend
Developer" is never matched to a vocabulary title "Backend Developer". -/
theorem c6_specific_word_guard (tag : String → List String)
    (role title : String) (csv_titles : List String)
    (hsub : strContainsSub (strToLower title) (strTrim (strToLower role)) = false)
    (hw : ∃ w ∈ specificWordsOf tag (strTrim (strToLower role)),
        w ∉ specificWordsOf tag (strToLower title)) :
    title ∉ match_roles_to_csv_titles tag [some role] csv_titles := by
  intro hmem
  unfold match_roles_to_csv_titles at hmem
  rw [List.foldl_cons, List.foldl_nil] at hmem
  simp only [processRole] at hmem
  by_cases h0 : role = ""
  · rw [if_pos h0] at hmem
    simp at hmem
  rw [if_neg h0] at hmem
  by_cases h1 : csv_titles.contains (strTrim (strToLower role))
  · rw [if_pos h1] at hmem
    rw [if_neg (by simp)] at hmem
    have heq : title = strTrim (strToLower role) := by simpa using hmem
    obtain ⟨w, hw1, hw2⟩ := hw
    apply hw2
    have h2 : strToLower title = strTrim (strToLower role) := by
      rw [heq]; exact strToLower_roleNorm role
    rw [h2]
    exact hw1
  rw [if_neg h1] at hmem
  by_cases h3 : ((tag (strTrim (strToLower role))).filter
      (fun w => !(common_words.contains w))).isEmpty ∧
      ((tag (strTrim (strToLower role))).filter
        (fun w => common_words.contains w)).length < 2
  · rw [if_pos h3] at hmem
    simp at hmem
  rw [if_neg h3] at hmem
  have hskip := titleStep_skips tag (strTrim (strToLower role))
    (tag (strTrim (strToLower role)))
    ((tag (strTrim (strToLower role))).filter (fun w => common_words.contains w))
    title hsub hw
  simp only [specificWordsOf] at hskip
  have hbest := foldl_best_ne tag (strTrim (strToLower role))
    (tag (strTrim (strToLower role)))
    ((tag (strTrim (strToLower role))).filter (fun w => !(common_words.contains w)))
    ((tag (strTrim (strToLower role))).filter (fun w => common_words.contains w))
    title hskip csv_titles (none, 0) (by simp)
  rcases hfold : csv_titles.foldl (titleStep tag (strTrim (strToLower role))
      (tag (strTrim (strToLower role)))
      ((tag (strTrim (strToLower role))).filter (fun w => !(common_words.contains w)))
      ((tag (strTrim (strToLower role))).filter (fun w => common_words.contains w)))
      (none, 0) with ⟨obm, bs⟩
  rw [hfold] at hmem hbest
  dsimp only at hmem hbest
  cases obm with
  | none => simp at hmem
  | some bm =>
    dsimp only at hmem
    by_cases h4 : (40 : ℚ) ≤ bs
    · rw [if_pos h4] at hmem
      rw [if_neg (by simp)] at hmem
      have heqt : title = bm := by simpa using hmem
      exact hbest (by rw [heqt])
    · rw [if_neg h4] at hmem
      simp at hmem

/-- A part-of-speech extraction consistent with SpaCy tagging "design" and
"designer" as single nouns, used for the C6 counterexample. -/
def c6Tag : String → List String :=
  fun s => if s = "design" then ["design"] else if s = "designer" then ["designer"] else []

/-- Counterexample to C6 as frozen: the role "design" has the specific
significant word "design", which is not among the specific words of the
vocabulary title "designer" (whose only word is "designer"), yet the matcher
returns "designer" for the role because `"design" in "designer"` holds as a
substring (ner_filter.py line 112) and that branch skips the subset check. -/
theorem c6_counterexample :
    match_roles_to_csv_titles c6Tag [some "design"] ["designer"] = ["designer"] ∧
      "design" ∈ specificWordsOf c6Tag "design" ∧
      "design" ∉ specificWordsOf c6Tag "designer" := by
  refine ⟨?_, by decide, by decide⟩
  unfold match_roles_to_csv_titles
  rw [List.foldl_cons, List.foldl_nil]
  simp only [processRole]
  rw [if_neg (by decide)]
  rw [if_neg (by decide)]
  rw [if_neg (by decide)]
  rw [List.foldl_cons, List.foldl_nil]
  have hst : titleStep c6Tag (strTrim (strToLower "design"))
      (c6Tag (strTrim (strToLower "design")))
      ((c6Tag (strTrim (strToLower "design"))).filter (fun w => !(common_words.contains w)))
      ((c6Tag (strTrim (strToLower "design"))).filter (fun w => common_words.contains w))
      ((none : Option String), (0 : ℚ)) "designer" = (some "designer", 98) := by
    simp only [titleStep]
    rw [if_pos (by decide)]
    have hL : (strToLower "designer").length = 8 := by decide
    have hR : (strTrim (strToLower "design")).length = 6 := by decide
    rw [hL, hR]
    norm_num
  rw [hst]
  norm_num

/-- A tagger consistent with SpaCy on the two role strings of the spec's own
example. -/
def fbTag : String → List String := fun s =>
  if s = "frontend developer" then ["frontend", "developer"]
  else if s = "backend developer" then ["backend", "developer"]
  else []

/-- Witness for C6 on the spec's example: "Frontend Developer" is never
matched to the vocabulary title "Backend Developer". -/
theorem c6_specific_word_guard_witness :
    "Backend Developer" ∉
      match_roles_to_csv_titles fbTag [some "Frontend Developer"] ["Backend Developer"] :=
  c6_specific_word_guard fbTag "Frontend Developer" "Backend Developer" ["Backend Developer"]
    (by decide) ⟨"frontend", by decide, by decide⟩

/-! ### Parsed CV data and the skills matcher

`calculate_skills_match_score` from match_service.py lines 117–163. -/

/-- One entry of `ParsedCV.education`; only the nested fallback locations
used by the orchestrator are relevant, the rest of the entry is opaque. -/
structure EducationEntry where
  academic_projects : List String
  certifications : List String
deriving DecidableEq

/-- `skills_analysis` of a parsed CV. -/
structure SkillsAnalysis where
  explicit_skills : List String
  job_related_skills : List String
deriving DecidableEq

/-- The parsed CV snapshot as consumed by the match service.  Entries of
`experience`, `projects` and `certifications` are opaque payloads passed to
the agents, modelled as strings. -/
structure CVData where
  education : List EducationEntry
  experience : List String
  projects : List String
  certifications : List String
  skills_analysis : SkillsAnalysis
deriving DecidableEq

/-- Modelled from the spec: the external collaborators of the skills matcher.
`get_skills_for_job_positions` and `compute_skill_weights` live in the
cv-parser packages `ner_skill_matcher.job_skill_db` and
`ner_skill_matcher.skill_scoring`, which are not part of this repository
snapshot; per spec §4.1 they are "the union of vocabulary skills for those
titles" and "per-skill importance weights over the target skill set …
treated as an external weighting function" (the dict's `.get(s, 0.0)` default
is folded into the function).  `tag` is the SpaCy part-of-speech extraction
and `csv_titles` the canonical title vocabulary (`get_all_job_titles`). -/
structure SkillsEnv where
  tag : String → List String
  csv_titles : List String
  get_skills_for_job_positions : List String → List String
  compute_skill_weights : List String → String → ℚ

/-- Result dict of `calculate_skills_match_score` (match_service.py lines
158–163). -/
structure SkillsResult where
  match_score : ℚ
  matched_skills : List String
  total_cv_skills : ℕ
  total_job_skills : ℕ
deriving DecidableEq

/-- `calculate_skills_match_score` (match_service.py lines 117–163).  Python
sets become deduplicated lists; set intersection becomes a membership
filter; `sorted(list(...))` becomes an insertion sort. -/
def calculate_skills_match_score (env : SkillsEnv) (cv_data : CVData)
    (job_position : String) : SkillsResult :=
  let explicit_skills := cv_data.skills_analysis.explicit_skills.dedup
  let job_related_skills := cv_data.skills_analysis.job_related_skills.dedup
  let matched_roles := match_roles_to_csv_titles env.tag [some job_position] env.csv_titles
  if matched_roles.isEmpty = false then
    let position_skills := env.get_skills_for_job_positions matched_roles
    let matched_skills := explicit_skills.filter (fun s => position_skills.contains s)
    if position_skills.isEmpty = false then
      let skill_weights := env.compute_skill_weights position_skills
      let match_score := min 1 ((matched_skills.map skill_weights).sum)
      { match_score := round3 match_score,
        matched_skills := sortStrings matched_skills,
        total_cv_skills := explicit_skills.length,
        total_job_skills := position_skills.length }
    else
      { match_score := round3 0,
        matched_skills := sortStrings matched_skills,
        total_cv_skills := explicit_skills.length,
        total_job_skills := position_skills.length }
  else
    if job_related_skills.isEmpty = false then
      let matched_skills := explicit_skills.filter (fun s => job_related_skills.contains s)
      let skill_weights := env.compute_skill_weights job_related_skills
      let match_score := min 1 ((matched_skills.map skill_weights).sum)
      { match_score := round3 match_score,
        matched_skills := sortStrings matched_skills,
        total_cv_skills := explicit_skills.length,
        total_job_skills := job_related_skills.length }
    else
      { match_score := round3 0,
        matched_skills := [],
        total_cv_skills := explicit_skills.length,
        total_job_skills := job_related_skills.length }

/-- The target skill set the matcher scores against: the vocabulary skills
of the resolved titles, or the CV's own `job_related_skills` fallback. -/
def targetSkills (env : SkillsEnv) (cv_data : CVData) (job_position : String) : List String :=
  let matched_roles := match_roles_to_csv_titles env.tag [some job_position] env.csv_titles
  if matched_roles.isEmpty = false then
    env.get_skills_for_job_positions matched_roles
  else cv_data.skills_analysis.job_related_skills.dedup

theorem mem_insertSorted (s t : String) (l : List String) :
    t ∈ insertSorted s l ↔ t = s ∨ t ∈ l := by
  induction l with
  | nil => simp [insertSorted]
  | cons a l ih =>
    simp only [insertSorted]
    split_ifs
    · simp
    · simp only [List.mem_cons, ih]
      tauto

theorem mem_sortStrings (t : String) (l : List String) :
    t ∈ sortStrings l ↔ t ∈ l := by
  induction l with
  | nil => simp [sortStrings]
  | cons a l ih =>
    simp only [sortStrings, mem_insertSorted, ih, List.mem_cons]

/-- C5 (amended): the skills matcher returns `matched_skills` equal (as a
set) to the intersection of the candidate's `explicit_skills` with the
resolved target skill set, and `match_score` equal to
`round(min(1.0, Σ weight[s] for s in matched_skills), 3)` — the code rounds
the documented `min(1.0, Σ)` value to three decimals before returning it.
Empty candidate skills give score `0` with empty `matched_skills`; no
resolved vocabulary title and no `job_related_skills` give score `0`. -/
theorem c5_skills_match_amended (env : SkillsEnv) (cv : CVData) (jp : String) :
    ((calculate_skills_match_score env cv jp).match_score =
      round3 (min 1 (((cv.skills_analysis.explicit_skills.dedup.filter
        (fun s => (targetSkills env cv jp).contains s)).map
          (env.compute_skill_weights (targetSkills env cv jp))).sum))) ∧
    (∀ s, s ∈ (calculate_skills_match_score env cv jp).matched_skills ↔
      s ∈ cv.skills_analysis.explicit_skills ∧ s ∈ targetSkills env cv jp) ∧
    (cv.skills_analysis.explicit_skills = [] →
      (calculate_skills_match_score env cv jp).match_score = 0 ∧
      (calculate_skills_match_score env cv jp).matched_skills = []) ∧
    ((match_roles_to_csv_titles env.tag [some jp] env.csv_titles).isEmpty = true ∧
        cv.skills_analysis.job_related_skills = [] →
      (calculate_skills_match_score env cv jp).match_score = 0) := by
  have hmemfilter : ∀ (tgt : List String) (s : String),
      s ∈ cv.skills_analysis.explicit_skills.dedup.filter (fun x => tgt.contains x) ↔
        s ∈ cv.skills_analysis.explicit_skills ∧ s ∈ tgt := by
    intro tgt s
    rw [List.mem_filter, List.mem_dedup]
    constructor
    · exact fun ⟨h1, h2⟩ => ⟨h1, List.mem_of_elem_eq_true h2⟩
    · exact fun ⟨h1, h2⟩ => ⟨h1, List.elem_eq_true_of_mem h2⟩
  simp only [calculate_skills_match_score, targetSkills]
  by_cases hm : (match_roles_to_csv_titles env.tag [some jp] env.csv_titles).isEmpty = false
  · rw [if_pos hm, if_pos hm]
    by_cases hp : (env.get_skills_for_job_positions
        (match_roles_to_csv_titles env.tag [some jp] env.csv_titles)).isEmpty = false
    · rw [if_pos hp]
      refine ⟨rfl, ?_, ?_, ?_⟩
      · intro s
        rw [mem_sortStrings]
        exact hmemfilter _ s
      · intro he
        rw [he]
        constructor
        · simp [round3_zero]
        · simp [sortStrings]
      · intro ⟨h1, _⟩
        rw [hm] at h1
        exact absurd h1 (by simp)
    · rw [if_neg hp]
      have hpe : env.get_skills_for_job_positions
          (match_roles_to_csv_titles env.tag [some jp] env.csv_titles) = [] := by
        rcases h : env.get_skills_for_job_positions
            (match_roles_to_csv_titles env.tag [some jp] env.csv_titles) with _ | ⟨a, l⟩
        · rfl
        · rw [h] at hp; simp at hp
      refine ⟨?_, ?_, ?_, ?_⟩
      · rw [hpe]
        simp [round3_zero, List.filter_eq_nil_iff]
      · intro s
        rw [mem_sortStrings, hpe]
        simp [hmemfilter]
      · intro he
        rw [he]
        constructor
        · simp [round3_zero]
        · simp [sortStrings]
      · intro ⟨h1, _⟩
        rw [hm] at h1
        exact absurd h1 (by simp)
  · rw [if_neg hm, if_neg hm]
    by_cases hj : cv.skills_analysis.job_related_skills.dedup.isEmpty = false
    · rw [if_pos hj]
      refine ⟨rfl, ?_, ?_, ?_⟩
      · intro s
        rw [mem_sortStrings]
        rw [hmemfilter]
      · intro he
        rw [he]
        constructor
        · simp [round3_zero]
        · simp [sortStrings]
      · intro ⟨_, h2⟩
        rw [h2] at hj
        simp at hj
    · rw [if_neg hj]
      have hje : cv.skills_analysis.job_related_skills.dedup = [] := by
        rcases h : cv.skills_analysis.job_related_skills.dedup with _ | ⟨a, l⟩
        · rfl
        · rw [h] at hj; simp at hj
      refine ⟨?_, ?_, ?_, ?_⟩
      · rw [hje]
        simp [round3_zero, List.filter_eq_nil_iff]
      · intro s
        rw [hje]
        simp
      · intro _
        exact ⟨round3_zero, rfl⟩
      · intro _
        exact round3_zero

/-- Skills environment for the C5 counterexample: the job position "x" is an
exact vocabulary title whose skill list is `["s1"]`, with every skill
weighted `1/3`. -/
def c5Env : SkillsEnv :=
  { tag := fun _ => [],
    csv_titles := ["x"],
    get_skills_for_job_positions := fun _ => ["s1"],
    compute_skill_weights := fun _ _ => 1/3 }

/-- CV for the C5 counterexample: one explicit skill "s1". -/
def c5Cv : CVData :=
  { education := [], experience := [], projects := [], certifications := [],
    skills_analysis := { explicit_skills := ["s1"], job_related_skills := [] } }

/-- Counterexample to C5 as frozen: with a single matched skill of weight
`1/3`, the code returns `round(1/3, 3) = 0.333`, not the claimed exact
`min(1.0, Σ weight) = 1/3`. -/
theorem c5_counterexample :
    (calculate_skills_match_score c5Env c5Cv "x").matched_skills = ["s1"] ∧
      (calculate_skills_match_score c5Env c5Cv "x").match_score = 333/1000 ∧
      min 1 (((["s1"] : List String).map (c5Env.compute_skill_weights ["s1"])).sum) = 1/3 ∧
      (333/1000 : ℚ) ≠ 1/3 := by
  have hroles : match_roles_to_csv_titles c5Env.tag [some "x"] c5Env.csv_titles = ["x"] := by
    decide
  refine ⟨?_, ?_, ?_, by norm_num⟩
  · simp only [calculate_skills_match_score, hroles]
    norm_num +decide [c5Env, c5Cv, sortStrings, insertSorted]
  · simp only [calculate_skills_match_score, hroles]
    norm_num +decide [c5Env, c5Cv]
    unfold round3 halfEvenRound
    norm_num
  · norm_num [c5Env]

/-- Witness for C5 at a concrete input: no vocabulary title resolves and the
CV has no `job_related_skills`, so the score is `0`. -/
theorem c5_skills_match_amended_witness :
    (calculate_skills_match_score
      { tag := fun _ => [], csv_titles := [],
        get_skills_for_job_positions := fun _ => [],
        compute_skill_weights := fun _ _ => 0 }
      { education := [], experience := [], projects := [], certifications := [],
        skills_analysis := { explicit_skills := ["a"], job_related_skills := [] } }
      "zz").match_score = 0 :=
  (c5_skills_match_amended _ _ "zz").2.2.2 ⟨by decide, rfl⟩

/-! ### Match orchestrator

`calculate_match_score` from match_service.py lines 194–403.  The storage
fetch and the four LLM agents are external collaborators: each agent's
`invoke` either returns a result whose `match_score` field is a float, or
raises an exception, modelled as `Except String ℚ`. -/

/-- One entry of `component_results`: the agent's dumped result (its
diagnostic payload beyond `match_score` is abstracted away), or the
"no data" marker dict, or the error marker dict written by the per-agent
exception handler. -/
structure ComponentResult where
  match_score : ℚ
  error : Option String
  reasoning : Option String
deriving DecidableEq

/-- One entry of `score_breakdown` (match_service.py lines 367–374). -/
structure Breakdown where
  raw_score : ℚ
  weight : ℚ
  weighted_score : ℚ
deriving DecidableEq

/-- The dict returned by `calculate_match_score`.  In the no-CV early
returns the Python dict has no `score_breakdown` and no `metadata` key;
`score_breakdown` is modelled as empty there and the metadata (ids, dates)
is not modelled. -/
structure MatchResult where
  final_score : ℚ
  error : Option String
  component_scores : List (String × ℚ)
  component_results : List (String × ComponentResult)
  score_breakdown : List (String × Breakdown)
deriving DecidableEq

/-- External collaborators of one `calculate_match_score` invocation:
the CV fetch (which may raise, return nothing, or return a parsed CV),
the four component agents, the skills-matcher environment, and the
best-effort artifact store (its failure is swallowed, so its outcome
cannot influence the returned value). -/
structure MatchEnv where
  get_parsed_cv : Except String (Option CVData)
  education_agent : String → List EducationEntry → Except String ℚ
  experience_agent : String → List String → Except String ℚ
  projects_agent : String → List String → Except String ℚ
  certifications_agent : String → List String → Except String ℚ
  skills : SkillsEnv
  store_result : Except String Unit

/-- `WEIGHTS` from match_service.py lines 108–114. -/
def WEIGHTS : List (String × ℚ) :=
  [("education", 20/100), ("experience", 40/100), ("projects", 20/100),
   ("certifications", 10/100), ("skills", 10/100)]

/-- `job_position_text = job_description if job_description else job_title`
(match_service.py line 248); `None` and the empty string are falsy. -/
def jobText (job_title : String) (job_description : Option String) : String :=
  match job_description with
  | some d => if d = "" then job_title else d
  | none => job_title

/-- Education block (match_service.py lines 260–274): skip with a "no data"
marker on an empty section, catch the agent's exception into an error
marker, else record the agent's score. -/
def educationComponent (env : MatchEnv) (job_text : String) (cv : CVData) :
    ℚ × ComponentResult :=
  if cv.education.isEmpty = false then
    match env.education_agent job_text cv.education with
    | .ok r => (r, { match_score := r, error := none, reasoning := none })
    | .error e => (0, { match_score := 0, error := some e, reasoning := none })
  else (0, { match_score := 0, error := none, reasoning := some "No education data found" })

/-- Experience block (match_service.py lines 276–290). -/
def experienceComponent (env : MatchEnv) (job_text : String) (cv : CVData) :
    ℚ × ComponentResult :=
  if cv.experience.isEmpty = false then
    match env.experience_agent job_text cv.experience with
    | .ok r => (r, { match_score := r, error := none, reasoning := none })
    | .error e => (0, { match_score := 0, error := some e, reasoning := none })
  else (0, { match_score := 0, error := none, reasoning := some "No experience data found" })

/-- The projects data with its nested fallback location
(match_service.py lines 295–301). -/
def projectsData (cv : CVData) : List String :=
  if cv.projects.isEmpty = false then cv.projects
  else (cv.education.map (fun e => e.academic_projects)).flatten

/-- Projects block (match_service.py lines 292–313). -/
def projectsComponent (env : MatchEnv) (job_text : String) (cv : CVData) :
    ℚ × ComponentResult :=
  if (projectsData cv).isEmpty = false then
    match env.projects_agent job_text (projectsData cv) with
    | .ok r => (r, { match_score := r, error := none, reasoning := none })
    | .error e => (0, { match_score := 0, error := some e, reasoning := none })
  else (0, { match_score := 0, error := none, reasoning := some "No projects data found" })

/-- The certifications data with its nested fallback location
(match_service.py lines 318–324). -/
def certificationsData (cv : CVData) : List String :=
  if cv.certifications.isEmpty = false then cv.certifications
  else (cv.education.map (fun e => e.certifications)).flatten

/-- Certifications block (match_service.py lines 315–336). -/
def certificationsComponent (env : MatchEnv) (job_text : String) (cv : CVData) :
    ℚ × ComponentResult :=
  if (certificationsData cv).isEmpty = false then
    match env.certifications_agent job_text (certificationsData cv) with
    | .ok r => (r, { match_score := r, error := none, reasoning := none })
    | .error e => (0, { match_score := 0, error := some e, reasoning := none })
  else (0, { match_score := 0, error := none, reasoning := some "No certifications data found" })

/-- Skills block (match_service.py lines 338–347): `calculate_skills_match_score`
is a pure computation in this model, so its exception handler is dead. -/
def skillsComponent (env : MatchEnv) (job_text : String) (cv : CVData) :
    ℚ × ComponentResult :=
  let r := calculate_skills_match_score env.skills cv job_text
  (r.match_score, { match_score := r.match_score, error := none, reasoning := none })

/-- `calculate_match_score` (match_service.py lines 194–403).  The two
no-CV early returns (lines 225–245) produce the degraded result; otherwise
the five component blocks run, the final score is aggregated, the breakdown
is built from `component_scores` and `WEIGHTS`, and the artifact store is
attempted with its failure swallowed (lines 377–401), leaving the returned
value unaffected. -/
def calculate_match_score (env : MatchEnv) (job_title : String)
    (job_description : Option String) : MatchResult :=
  match env.get_parsed_cv with
  | .error e =>
      { final_score := 0, error := some ("Failed to retrieve CV data: " ++ e),
        component_scores := [], component_results := [], score_breakdown := [] }
  | .ok none =>
      { final_score := 0, error := some "No CV data found. Please upload your CV first.",
        component_scores := [], component_results := [], score_breakdown := [] }
  | .ok (some cv) =>
      let jt := jobText job_title job_description
      let ed := educationComponent env jt cv
      let ex := experienceComponent env jt cv
      let pr := projectsComponent env jt cv
      let ce := certificationsComponent env jt cv
      let sk := skillsComponent env jt cv
      let component_scores := [("education", ed.1), ("experience", ex.1),
        ("projects", pr.1), ("certifications", ce.1), ("skills", sk.1)]
      { final_score := normalize_final_score component_scores WEIGHTS,
        error := none,
        component_scores := component_scores,
        component_results := [("education", ed.2), ("experience", ex.2),
          ("projects", pr.2), ("certifications", ce.2), ("skills", sk.2)],
        score_breakdown := component_scores.map (fun p =>
          (p.1, { raw_score := p.2, weight := dictGet WEIGHTS p.1 0,
                  weighted_score := round3 (p.2 * dictGet WEIGHTS p.1 0) })) }

/-- C7: when the CV fetch returns nothing or raises, `calculate_match_score`
returns (it is a total function, never propagating an exception) a result
with `final_score = 0.0`, a non-null `error`, and empty `component_scores`
and `component_results` maps. -/
theorem c7_no_cv_terminal (env : MatchEnv) (jt : String) (jd : Option String)
    (h : env.get_parsed_cv = .ok none ∨ ∃ e, env.get_parsed_cv = .error e) :
    (calculate_match_score env jt jd).final_score = 0 ∧
      (calculate_match_score env jt jd).error ≠ none ∧
      (calculate_match_score env jt jd).component_scores = [] ∧
      (calculate_match_score env jt jd).component_results = [] := by
  rcases h with h | ⟨e, h⟩
  · simp [calculate_match_score, h]
  · simp [calculate_match_score, h]

/-- A trivial agent environment with no CV, used as the C7 witness input. -/
def c7Env : MatchEnv :=
  { get_parsed_cv := .ok none,
    education_agent := fun _ _ => .ok 0,
    experience_agent := fun _ _ => .ok 0,
    projects_agent := fun _ _ => .ok 0,
    certifications_agent := fun _ _ => .ok 0,
    skills :=
      { tag := fun _ => [],
        csv_titles := [],
        get_skills_for_job_positions := fun _ => [],
        compute_skill_weights := fun _ _ => 0 },
    store_result := .ok () }

/-- Witness for C7 at a concrete environment whose CV fetch finds nothing. -/
theorem c7_no_cv_terminal_witness :
    (calculate_match_score c7Env "Engineer" none).final_score = 0 ∧
      (calculate_match_score c7Env "Engineer" none).error ≠ none ∧
      (calculate_match_score c7Env "Engineer" none).component_scores = [] ∧
      (calculate_match_score c7Env "Engineer" none).component_results = [] :=
  c7_no_cv_terminal c7Env "Engineer" none (Or.inl (by rfl))

/-- C8: when one component agent raises (any of the four; e.g. education)
while the CV has data for that section, `calculate_match_score` still
completes: the returned result carries no top-level `error`, the failing
component scores `0.0` with an error diagnostic, and the remaining
components carry their normally computed scores, with the final score
aggregated from them. -/
theorem c8_agent_failure_isolated (env : MatchEnv) (jt : String) (jd : Option String)
    (cv : CVData) (msg : String) (hcv : env.get_parsed_cv = .ok (some cv)) :
    ((cv.education.isEmpty = false ∧
        env.education_agent (jobText jt jd) cv.education = .error msg) →
      (calculate_match_score env jt jd).error = none ∧
      (calculate_match_score env jt jd).component_scores =
        [("education", 0),
         ("experience", (experienceComponent env (jobText jt jd) cv).1),
         ("projects", (projectsComponent env (jobText jt jd) cv).1),
         ("certifications", (certificationsComponent env (jobText jt jd) cv).1),
         ("skills", (skillsComponent env (jobText jt jd) cv).1)] ∧
      (calculate_match_score env jt jd).component_results.head? =
        some ("education", { match_score := 0, error := some msg, reasoning := none }) ∧
      (calculate_match_score env jt jd).final_score =
        normalize_final_score
          [("education", 0),
           ("experience", (experienceComponent env (jobText jt jd) cv).1),
           ("projects", (projectsComponent env (jobText jt jd) cv).1),
           ("certifications", (certificationsComponent env (jobText jt jd) cv).1),
           ("skills", (skillsComponent env (jobText jt jd) cv).1)] WEIGHTS) ∧
    ((cv.experience.isEmpty = false ∧
        env.experience_agent (jobText jt jd) cv.experience = .error msg) →
      (calculate_match_score env jt jd).error = none ∧
      (calculate_match_score env jt jd).component_scores =
        [("education", (educationComponent env (jobText jt jd) cv).1),
         ("experience", 0),
         ("projects", (projectsComponent env (jobText jt jd) cv).1),
         ("certifications", (certificationsComponent env (jobText jt jd) cv).1),
         ("skills", (skillsComponent env (jobText jt jd) cv).1)] ∧
      ((calculate_match_score env jt jd).component_results.get? 1 =
        some ("experience", { match_score := 0, error := some msg, reasoning := none })) ∧
      (calculate_match_score env jt jd).final_score =
        normalize_final_score
          [("education", (educationComponent env (jobText jt jd) cv).1),
           ("experience", 0),
           ("projects", (projectsComponent env (jobText jt jd) cv).1),
           ("certifications", (certificationsComponent env (jobText jt jd) cv).1),
           ("skills", (skillsComponent env (jobText jt jd) cv).1)] WEIGHTS) ∧
    (((projectsData cv).isEmpty = false ∧
        env.projects_agent (jobText jt jd) (projectsData cv) = .error msg) →
      (calculate_match_score env jt jd).error = none ∧
      (calculate_match_score env jt jd).component_scores =
        [("education", (educationComponent env (jobText jt jd) cv).1),
         ("experience", (experienceComponent env (jobText jt jd) cv).1),
         ("projects", 0),
         ("certifications", (certificationsComponent env (jobText jt jd) cv).1),
         ("skills", (skillsComponent env (jobText jt jd) cv).1)] ∧
      ((calculate_match_score env jt jd).component_results.get? 2 =
        some ("projects", { match_score := 0, error := some msg, reasoning := none })) ∧
      (calculate_match_score env jt jd).final_score =
        normalize_final_score
          [("education", (educationComponent env (jobText jt jd) cv).1),
           ("experience", (experienceComponent env (jobText jt jd) cv).1),
           ("projects", 0),
           ("certifications", (certificationsComponent env (jobText jt jd) cv).1),
           ("skills", (skillsComponent env (jobText jt jd) cv).1)] WEIGHTS) ∧
    (((certificationsData cv).isEmpty = false ∧
        env.certifications_agent (jobText jt jd) (certificationsData cv) = .error msg) →
      (calculate_match_score env jt jd).error = none ∧
      (calculate_match_score env jt jd).component_scores =
        [("education", (educationComponent env (jobText jt jd) cv).1),
         ("experience", (experienceComponent env (jobText jt jd) cv).1),
         ("projects", (projectsComponent env (jobText jt jd) cv).1),
         ("certifications", 0),
         ("skills", (skillsComponent env (jobText jt jd) cv).1)] ∧
      ((calculate_match_score env jt jd).component_results.get? 3 =
        some ("certifications", { match_score := 0, error := some msg, reasoning := none })) ∧
      (calculate_match_score env jt jd).final_score =
        normalize_final_score
          [("education", (educationComponent env (jobText jt jd) cv).1),
           ("experience", (experienceComponent env (jobText jt jd) cv).1),
           ("projects", (projectsComponent env (jobText jt jd) cv).1),
           ("certifications", 0),
           ("skills", (skillsComponent env (jobText jt jd) cv).1)] WEIGHTS) := by
  refine ⟨?_, ?_, ?_, ?_⟩
  · intro ⟨hed, hfail⟩
    have hedc : educationComponent env (jobText jt jd) cv =
        (0, { match_score := 0, error := some msg, reasoning := none }) := by
      unfold educationComponent
      rw [if_pos hed, hfail]
    simp [calculate_match_score, hcv, hedc]
  · intro ⟨hex, hfail⟩
    have hexc : experienceComponent env (jobText jt jd) cv =
        (0, { match_score := 0, error := some msg, reasoning := none }) := by
      unfold experienceComponent
      rw [if_pos hex, hfail]
    simp [calculate_match_score, hcv, hexc]
  · intro ⟨hpr, hfail⟩
    have hprc : projectsComponent env (jobText jt jd) cv =
        (0, { match_score := 0, error := some msg, reasoning := none }) := by
      unfold projectsComponent
      rw [if_pos hpr, hfail]
    simp [calculate_match_score, hcv, hprc]
  · intro ⟨hce, hfail⟩
    have hcec : certificationsComponent env (jobText jt jd) cv =
        (0, { match_score := 0, error := some msg, reasoning := none }) := by
      unfold certificationsComponent
      rw [if_pos hce, hfail]
    simp [calculate_match_score, hcv, hcec]

/-- CV used by the C8/C9 witnesses: education and experience data present. -/
def okCv : CVData :=
  { education := [{ academic_projects := [], certifications := [] }],
    experience := ["worked"], projects := [], certifications := [],
    skills_analysis := { explicit_skills := [], job_related_skills := [] } }

/-- The empty skills environment (no vocabulary, no weights). -/
def zeroSkillsEnv : SkillsEnv :=
  { tag := fun _ => [],
    csv_titles := [],
    get_skills_for_job_positions := fun _ => [],
    compute_skill_weights := fun _ _ => 0 }

/-- Environment for the C8 witness: the education agent raises, the other
agents succeed. -/
def c8Env : MatchEnv :=
  { get_parsed_cv := .ok (some okCv),
    education_agent := fun _ _ => .error "boom",
    experience_agent := fun _ _ => .ok (1/2),
    projects_agent := fun _ _ => .ok (1/2),
    certifications_agent := fun _ _ => .ok (1/2),
    skills := zeroSkillsEnv,
    store_result := .ok () }

/-- Witness for C8 at a concrete environment: the education agent raises. -/
theorem c8_agent_failure_isolated_witness :
    (calculate_match_score c8Env "Engineer" none).error = none ∧
      (calculate_match_score c8Env "Engineer" none).component_scores =
        [("education", 0),
         ("experience", (experienceComponent c8Env (jobText "Engineer" none) okCv).1),
         ("projects", (projectsComponent c8Env (jobText "Engineer" none) okCv).1),
         ("certifications", (certificationsComponent c8Env (jobText "Engineer" none) okCv).1),
         ("skills", (skillsComponent c8Env (jobText "Engineer" none) okCv).1)] ∧
      (calculate_match_score c8Env "Engineer" none).component_results.head? =
        some ("education", { match_score := 0, error := some "boom", reasoning := none }) ∧
      (calculate_match_score c8Env "Engineer" none).final_score =
        normalize_final_score
          [("education", 0),
           ("experience", (experienceComponent c8Env (jobText "Engineer" none) okCv).1),
           ("projects", (projectsComponent c8Env (jobText "Engineer" none) okCv).1),
           ("certifications", (certificationsComponent c8Env (jobText "Engineer" none) okCv).1),
           ("skills", (skillsComponent c8Env (jobText "Engineer" none) okCv).1)] WEIGHTS :=
  (c8_agent_failure_isolated c8Env "Engineer" none okCv "boom" (by rfl)).1 ⟨by rfl, by rfl⟩

/-- C9: on every successful computation (CV found), `component_scores`,
`component_results` and `score_breakdown` are keyed by exactly the five
components education, experience, projects, certifications, skills, and
every breakdown entry carries the configured weight of its component and
`weighted_score = round(raw_score * weight, 3)`, with `raw_score` the
component's entry in `component_scores`. -/
theorem c9_result_shape (env : MatchEnv) (jt : String) (jd : Option String)
    (cv : CVData) (hcv : env.get_parsed_cv = .ok (some cv)) :
    ((calculate_match_score env jt jd).component_scores.map (fun p => p.1) =
      ["education", "experience", "projects", "certifications", "skills"]) ∧
      ((calculate_match_score env jt jd).component_results.map (fun p => p.1) =
        ["education", "experience", "projects", "certifications", "skills"]) ∧
      ((calculate_match_score env jt jd).score_breakdown.map (fun p => p.1) =
        ["education", "experience", "projects", "certifications", "skills"]) ∧
      (∀ p ∈ (calculate_match_score env jt jd).score_breakdown,
        p.2.weight = dictGet WEIGHTS p.1 0 ∧
        p.2.weighted_score = round3 (p.2.raw_score * p.2.weight) ∧
        (p.1, p.2.raw_score) ∈ (calculate_match_score env jt jd).component_scores) := by
  simp only [calculate_match_score, hcv]
  refine ⟨rfl, rfl, rfl, ?_⟩
  intro p hp
  rcases List.mem_map.mp hp with ⟨q, hq, rfl⟩
  exact ⟨rfl, rfl, hq⟩

/-- Environment for the C9 witness: all agents succeed. -/
def c9Env : MatchEnv :=
  { get_parsed_cv := .ok (some okCv),
    education_agent := fun _ _ => .ok (1/2),
    experience_agent := fun _ _ => .ok (1/2),
    projects_agent := fun _ _ => .ok (1/2),
    certifications_agent := fun _ _ => .ok (1/2),
    skills := zeroSkillsEnv,
    store_result := .ok () }

/-- Witness for C9 at a concrete environment with a CV present. -/
theorem c9_result_shape_witness :
    (calculate_match_score c9Env "Engineer" none).component_scores.map (fun p => p.1) =
      ["education", "experience", "projects", "certifications", "skills"] :=
  ((c9_result_shape c9Env "Engineer" none okCv (by rfl)).1)

theorem educationComponent_bounds (env : MatchEnv) (jt : String) (cv : CVData)
    (h : ∀ t d r, env.education_agent t d = .ok r → 0 ≤ r ∧ r ≤ 1) :
    0 ≤ (educationComponent env jt cv).1 ∧ (educationComponent env jt cv).1 ≤ 1 := by
  unfold educationComponent
  split
  · cases hb : env.education_agent jt cv.education with
    | ok r => simp only [hb]; exact h jt cv.education r hb
    | error e => simp only [hb]; norm_num
  · norm_num

theorem experienceComponent_bounds (env : MatchEnv) (jt : String) (cv : CVData)
    (h : ∀ t d r, env.experience_agent t d = .ok r → 0 ≤ r ∧ r ≤ 1) :
    0 ≤ (experienceComponent env jt cv).1 ∧ (experienceComponent env jt cv).1 ≤ 1 := by
  unfold experienceComponent
  split
  · cases hb : env.experience_agent jt cv.experience with
    | ok r => simp only [hb]; exact h jt cv.experience r hb
    | error e => simp only [hb]; norm_num
  · norm_num

theorem projectsComponent_bounds (env : MatchEnv) (jt : String) (cv : CVData)
    (h : ∀ t d r, env.projects_agent t d = .ok r → 0 ≤ r ∧ r ≤ 1) :
    0 ≤ (projectsComponent env jt cv).1 ∧ (projectsComponent env jt cv).1 ≤ 1 := by
  unfold projectsComponent
  split
  · cases hb : env.projects_agent jt (projectsData cv) with
    | ok r => simp only [hb]; exact h jt (projectsData cv) r hb
    | error e => simp only [hb]; norm_num
  · norm_num

theorem certificationsComponent_bounds (env : MatchEnv) (jt : String) (cv : CVData)
    (h : ∀ t d r, env.certifications_agent t d = .ok r → 0 ≤ r ∧ r ≤ 1) :
    0 ≤ (certificationsComponent env jt cv).1 ∧ (certificationsComponent env jt cv).1 ≤ 1 := by
  unfold certificationsComponent
  split
  · cases hb : env.certifications_agent jt (certificationsData cv) with
    | ok r => simp only [hb]; exact h jt (certificationsData cv) r hb
    | error e => simp only [hb]; norm_num
  · norm_num

theorem skills_score_bounds (senv : SkillsEnv) (cv : CVData) (jt : String)
    (hw : ∀ l s, 0 ≤ senv.compute_skill_weights l s) :
    0 ≤ (calculate_skills_match_score senv cv jt).match_score ∧
      (calculate_skills_match_score senv cv jt).match_score ≤ 1 := by
  have hmin : ∀ (l : List String) (f : String → ℚ), (∀ s, 0 ≤ f s) →
      0 ≤ round3 (min 1 ((l.map f).sum)) ∧ round3 (min 1 ((l.map f).sum)) ≤ 1 := by
    intro l f hf
    have hsum : 0 ≤ (l.map f).sum := by
      apply List.sum_nonneg
      intro x hx
      rcases List.mem_map.mp hx with ⟨s, _, rfl⟩
      exact hf s
    constructor
    · exact round3_nonneg _ (le_min (by norm_num) hsum)
    · exact round3_le_one _ (min_le_left _ _)
  simp only [calculate_skills_match_score]
  split
  · split
    · dsimp only
      exact hmin _ _ (fun s => hw _ s)
    · norm_num [round3_zero]
  · split
    · dsimp only
      exact hmin _ _ (fun s => hw _ s)
    · norm_num [round3_zero]

/-- C4 (amended): no clamping is performed anywhere — the component scores
enter the aggregation raw, and a raw agent score outside `[0,1]` propagates
to a final score outside `[0,1]` (see the counterexample).  What holds
instead: whenever every agent success score lies in `[0,1]` (the agents'
documented contract) and the external skill weights are nonnegative, every
returned `final_score` lies in `[0.0, 1.0]`. -/
theorem c4_final_score_bounded (env : MatchEnv) (jt : String) (jd : Option String)
    (hedu : ∀ t d r, env.education_agent t d = .ok r → 0 ≤ r ∧ r ≤ 1)
    (hexp : ∀ t d r, env.experience_agent t d = .ok r → 0 ≤ r ∧ r ≤ 1)
    (hpro : ∀ t d r, env.projects_agent t d = .ok r → 0 ≤ r ∧ r ≤ 1)
    (hcer : ∀ t d r, env.certifications_agent t d = .ok r → 0 ≤ r ∧ r ≤ 1)
    (hwts : ∀ l s, 0 ≤ env.skills.compute_skill_weights l s) :
    0 ≤ (calculate_match_score env jt jd).final_score ∧
      (calculate_match_score env jt jd).final_score ≤ 1 := by
  unfold calculate_match_score
  cases hcv : env.get_parsed_cv with
  | error e => constructor <;> norm_num
  | ok o =>
    cases o with
    | none => constructor <;> norm_num
    | some cv =>
      simp only []
      have hed := educationComponent_bounds env (jobText jt jd) cv hedu
      have hex := experienceComponent_bounds env (jobText jt jd) cv hexp
      have hpr := projectsComponent_bounds env (jobText jt jd) cv hpro
      have hce := certificationsComponent_bounds env (jobText jt jd) cv hcer
      have hsk := skills_score_bounds env.skills cv (jobText jt jd) hwts
      have hs : ∀ p ∈ [("education", (educationComponent env (jobText jt jd) cv).1),
          ("experience", (experienceComponent env (jobText jt jd) cv).1),
          ("projects", (projectsComponent env (jobText jt jd) cv).1),
          ("certifications", (certificationsComponent env (jobText jt jd) cv).1),
          ("skills", (skillsComponent env (jobText jt jd) cv).1)], 0 ≤ p.2 ∧ p.2 ≤ 1 := by
        intro p hp
        simp only [List.mem_cons, List.not_mem_nil, or_false] at hp
        rcases hp with h | h | h | h | h <;> subst h
        · exact hed
        · exact hex
        · exact hpr
        · exact hce
        · exact hsk
      have hwnn : ∀ p ∈ WEIGHTS, 0 ≤ p.2 := by
        intro p hp
        fin_cases hp <;> norm_num
      have hb := weighted_sum_bounds _ WEIGHTS hs hwnn
      have htw : (WEIGHTS.map (fun p => p.2)).sum = 1 := by norm_num [WEIGHTS]
      simp only [normalize_final_score, htw]
      rw [if_pos (by norm_num : (0:ℚ) < 1)]
      rw [htw] at hb
      constructor
      · exact round3_nonneg _ (by rw [div_one]; exact hb.1)
      · exact round3_le_one _ (by rw [div_one]; exact hb.2)

/-- CV for the C4 counterexample: only experience data present. -/
def c4Cv : CVData :=
  { education := [], experience := ["worked"], projects := [], certifications := [],
    skills_analysis := { explicit_skills := [], job_related_skills := [] } }

/-- Environment for the C4 counterexample: the experience agent returns the
raw value `5.0`, outside `[0,1]`. -/
def c4Env : MatchEnv :=
  { get_parsed_cv := .ok (some c4Cv),
    education_agent := fun _ _ => .ok 0,
    experience_agent := fun _ _ => .ok 5,
    projects_agent := fun _ _ => .ok 0,
    certifications_agent := fun _ _ => .ok 0,
    skills := zeroSkillsEnv,
    store_result := .ok () }

/-- Counterexample to C4 as frozen: nothing clamps the component scores — a
raw experience score of `5.0` is stored as-is in `component_scores` and
drives `final_score` to `2.0`, outside `[0.0, 1.0]`. -/
theorem c4_counterexample :
    (calculate_match_score c4Env "Engineer" none).component_scores =
      [("education", 0), ("experience", 5), ("projects", 0),
       ("certifications", 0), ("skills", 0)] ∧
      (calculate_match_score c4Env "Engineer" none).final_score = 2 ∧
      ¬ ((calculate_match_score c4Env "Engineer" none).final_score ≤ 1) := by
  have hroles : match_roles_to_csv_titles c4Env.skills.tag [some (jobText "Engineer" none)]
      c4Env.skills.csv_titles = [] := by decide
  have hsk : skillsComponent c4Env (jobText "Engineer" none) c4Cv =
      (0, { match_score := 0, error := none, reasoning := none }) := by
    unfold skillsComponent
    have hcs : calculate_skills_match_score c4Env.skills c4Cv (jobText "Engineer" none) =
        { match_score := 0, matched_skills := [], total_cv_skills := 0, total_job_skills := 0 } := by
      simp only [calculate_skills_match_score, hroles]
      norm_num [c4Env, c4Cv, zeroSkillsEnv, round3_zero]
    rw [hcs]
  have hed : educationComponent c4Env (jobText "Engineer" none) c4Cv =
      (0, { match_score := 0, error := none, reasoning := some "No education data found" }) := by
    simp [educationComponent, c4Cv]
  have hex : experienceComponent c4Env (jobText "Engineer" none) c4Cv =
      (5, { match_score := 5, error := none, reasoning := none }) := by
    simp [experienceComponent, c4Cv, c4Env]
  have hpr : projectsComponent c4Env (jobText "Engineer" none) c4Cv =
      (0, { match_score := 0, error := none, reasoning := some "No projects data found" }) := by
    simp [projectsComponent, projectsData, c4Cv]
  have hce : certificationsComponent c4Env (jobText "Engineer" none) c4Cv =
      (0, { match_score := 0, error := none, reasoning := some "No certifications data found" }) := by
    simp [certificationsComponent, certificationsData, c4Cv]
  have hmain : calculate_match_score c4Env "Engineer" none =
      { final_score := normalize_final_score
          [("education", 0), ("experience", 5), ("projects", 0),
           ("certifications", 0), ("skills", 0)] WEIGHTS,
        error := none,
        component_scores := [("education", 0), ("experience", 5), ("projects", 0),
          ("certifications", 0), ("skills", 0)],
        component_results := [("education", ({ match_score := 0, error := none, reasoning := some "No education data found" } : ComponentResult)),
          ("experience", { match_score := 5, error := none, reasoning := none }),
          ("projects", { match_score := 0, error := none, reasoning := some "No projects data found" }),
          ("certifications", { match_score := 0, error := none, reasoning := some "No certifications data found" }),
          ("skills", { match_score := 0, error := none, reasoning := none })],
        score_breakdown := ([("education", (0:ℚ)), ("experience", 5), ("projects", 0),
          ("certifications", 0), ("skills", 0)]).map (fun p =>
          (p.1, { raw_score := p.2, weight := dictGet WEIGHTS p.1 0,
                  weighted_score := round3 (p.2 * dictGet WEIGHTS p.1 0) })) } := by
    have hfetch : c4Env.get_parsed_cv = .ok (some c4Cv) := rfl
    simp only [calculate_match_score, hfetch, hed, hex, hpr, hce, hsk]
  have hnorm : normalize_final_score
      [("education", 0), ("experience", 5), ("projects", 0),
       ("certifications", 0), ("skills", 0)] WEIGHTS = 2 := by
    norm_num +decide [normalize_final_score, WEIGHTS, dictGet]
    unfold round3 halfEvenRound
    norm_num
  rw [hmain]
  refine ⟨rfl, ?_, ?_⟩
  · exact hnorm
  · rw [hnorm]
    norm_num

/-- Witness for C4 at a concrete environment whose agents honour the
`[0,1]` contract. -/
theorem c4_final_score_bounded_witness :
    0 ≤ (calculate_match_score c9Env "Engineer" none).final_score ∧
      (calculate_match_score c9Env "Engineer" none).final_score ≤ 1 := by
  refine c4_final_score_bounded c9Env "Engineer" none ?_ ?_ ?_ ?_ ?_
  · intro t d r h
    injection h with h
    rw [← h]
    norm_num
  · intro t d r h
    injection h with h
    rw [← h]
    norm_num
  · intro t d r h
    injection h with h
    rw [← h]
    norm_num
  · intro t d r h
    injection h with h
    rw [← h]
    norm_num
  · intro l s
    exact le_refl 0

/-! ### Idempotency / background-scheduling wrapper

`apply_to_job` (backend/app/api/applications.py lines 43–495) and the bulk
sweep of `get_all_applications_for_recruiter` (lines 879–1098).  Only the
application-creation/update step and the scheduling decisions are modelled;
the profile/job validations of steps 1–2 are assumed to have passed, and the
database is presented through explicit values. -/

/-- HTTP error response raised by a handler (FastAPI `HTTPException`). -/
structure HttpError where
  status_code : ℕ
  detail : String
deriving DecidableEq

/-- An application row as the handler reads it. -/
structure AppRow where
  id : ℕ
  status : String
  match_score : Option ℚ
deriving DecidableEq

/-- A fire-and-forget background task started by the API layer. -/
inductive BgTask
  | calcMatch (application_id job_position_id : ℕ) (cv_timestamp : Option String)
deriving DecidableEq

/-- Successful completion of `apply_to_job`: the returned application record
and the background tasks started during the request. -/
structure ApplyOk where
  application : AppRow
  scheduled : List BgTask
deriving DecidableEq

/-- Reading a Python local that may be unassigned on the current control-flow
path: `none` models "never assigned here", which raises
`UnboundLocalError: cannot access local variable ...`. -/
def readLocal {α : Type} (v : Option α) (name : String) : Except String α :=
  match v with
  | some x => .ok x
  | none => .error ("cannot access local variable " ++ name)

/-- Steps 3–4 of `apply_to_job` (applications.py lines 149–495).  For an
existing application: build `update_data` (cover letter, withdrawn→applied
reactivation), return early when it is empty, then — before issuing the
update — run the match-score scheduling check
`if existing_match_score is None and cv_file_timestamp:`.  On this branch
`cv_file_timestamp` is a local assigned only in the new-application branch,
so the read goes through `readLocal none`; the raised `UnboundLocalError`
is caught by the surrounding `except Exception` handler (lines 346–379) and
converted to HTTP 500.  For a new application: insert the row (null score)
and always schedule the background calculation. -/
def apply_to_job (existing_app : Option AppRow) (cover_letter : Option String)
    (latest_cv_timestamp : Option String) (new_app_id job_position_id : ℕ) :
    Except HttpError ApplyOk :=
  match existing_app with
  | some app =>
    let update_has_cover : Bool :=
      match cover_letter with
      | some c => strTrim c != ""
      | none => false
    let update_has_status : Bool := app.status == "withdrawn"
    if update_has_cover = false ∧ update_has_status = false then
      .ok { application := app, scheduled := [] }
    else
      match app.match_score with
      | none =>
        match readLocal (none : Option (Option String)) "cv_file_timestamp" with
        | .error e =>
          .error { status_code := 500,
                   detail := "Failed to create/update application: " ++ e }
        | .ok ts =>
          let scheduled := match ts with
            | some t => [BgTask.calcMatch app.id job_position_id (some t)]
            | none => []
          .ok { application :=
                  { app with status := if update_has_status then "applied" else app.status },
                scheduled := scheduled }
      | some _ =>
        .ok { application :=
                { app with status := if update_has_status then "applied" else app.status },
              scheduled := [] }
  | none =>
    let inserted : AppRow := { id := new_app_id, status := "applied", match_score := none }
    if inserted.match_score = none then
      .ok { application := inserted,
            scheduled := [BgTask.calcMatch new_app_id job_position_id latest_cv_timestamp] }
    else
      .ok { application := inserted, scheduled := [] }

/-- The body of `calculate_match_in_background` (applications.py lines
242–294 and 428–487), reduced to which applications reach
`calculate_match_score`: re-read the stored score (double-check) and skip
when it is already non-null or the job is gone. -/
def runCalcMatchTask (db_score : ℕ → Option ℚ) (job_found : ℕ → Bool) :
    BgTask → List ℕ
  | BgTask.calcMatch app_id job_id _ =>
    match db_score app_id with
    | some _ => []
    | none => if job_found job_id then [app_id] else []

/-- One row of the recruiter listing (applications.py lines 929–957). -/
structure ListedApp where
  id : ℕ
  job_position_id : ℕ
  candidate_profile_id : Option String
  cv_file_timestamp : Option String
  match_score : Option ℚ
deriving DecidableEq

/-- Python truthiness of an optional string: `None` and `""` are falsy. -/
def pyTruthy : Option String → Bool
  | some s => s != ""
  | none => false

/-- The selection loop of `get_all_applications_for_recruiter` (lines
973–989): applications with a null stored score and a usable candidate id
are queued for the background sweep. -/
def applications_needing_scores (rows : List ListedApp) : List ListedApp :=
  rows.filter (fun r => r.match_score = none ∧ pyTruthy r.candidate_profile_id = true)

/-- `calculate_missing_scores` (applications.py lines 998–1088): process the
queued applications sequentially; for each, re-check the stored score (skip
when non-null), fetch the job (count an error when missing), else invoke
`calculate_match_score`.  Returns the ids for which the scorer runs. -/
def calculate_missing_scores (db_score : ℕ → Option ℚ) (job_found : ℕ → Bool)
    (pending : List ListedApp) : List ℕ :=
  (pending.filter (fun r => db_score r.id = none ∧ job_found r.job_position_id = true)).map
    (fun r => r.id)

/-- C3: an application whose stored match score is non-null never triggers
another scoring computation: re-triggering `apply_to_job` on it completes
and schedules no background task, a scheduled task skips it at the
double-check, and the recruiter listing's bulk sweep never invokes the
scorer for it. -/
theorem c3_nonnull_score_never_recomputed
    (app : AppRow) (s : ℚ) (cover latest_ts task_ts : Option String)
    (nid jid : ℕ) (db_score : ℕ → Option ℚ) (job_found : ℕ → Bool)
    (rows : List ListedApp)
    (hscore : app.match_score = some s)
    (hdb : db_score app.id = some s) :
    (∃ r, apply_to_job (some app) cover latest_ts nid jid = .ok r ∧ r.scheduled = []) ∧
      runCalcMatchTask db_score job_found (BgTask.calcMatch app.id jid task_ts) = [] ∧
      app.id ∉ calculate_missing_scores db_score job_found
        (applications_needing_scores rows) := by
  refine ⟨?_, ?_, ?_⟩
  · simp only [apply_to_job]
    by_cases hc : (match cover with
        | some c => strTrim c != ""
        | none => false) = false ∧ (app.status == "withdrawn") = false
    · rw [if_pos hc]
      exact ⟨_, rfl, rfl⟩
    · rw [if_neg hc, hscore]
      exact ⟨_, rfl, rfl⟩
  · simp only [runCalcMatchTask, hdb]
  · intro hmem
    simp only [calculate_missing_scores, List.mem_map] at hmem
    obtain ⟨r, hr, hid⟩ := hmem
    rw [List.mem_filter] at hr
    have hcond := hr.2
    simp only [decide_eq_true_eq] at hcond
    rw [hid] at hcond
    rw [hdb] at hcond
    exact absurd hcond.1 (by simp)

/-- Witness for C3 at a concrete application with a stored score of `1/2`. -/
theorem c3_nonnull_score_never_recomputed_witness :
    (∃ r, apply_to_job (some { id := 7, status := "applied", match_score := some (1/2) })
        none none 8 3 = .ok r ∧ r.scheduled = []) ∧
      runCalcMatchTask (fun i => if i = 7 then some (1/2) else none) (fun _ => true)
        (BgTask.calcMatch 7 3 none) = [] ∧
      7 ∉ calculate_missing_scores (fun i => if i = 7 then some (1/2) else none)
        (fun _ => true)
        (applications_needing_scores
          [{ id := 7, job_position_id := 3, candidate_profile_id := some "u",
             cv_file_timestamp := none, match_score := some (1/2) }]) :=
  c3_nonnull_score_never_recomputed
    { id := 7, status := "applied", match_score := some (1/2) } (1/2)
    none none none 8 3 (fun i => if i = 7 then some (1/2) else none) (fun _ => true)
    [{ id := 7, job_position_id := 3, candidate_profile_id := some "u",
       cv_file_timestamp := none, match_score := some (1/2) }]
    rfl (by norm_num)

/-- C2 evaluated at the failing input: reactivating a withdrawn application
whose stored score is null.  The scheduling check reads `cv_file_timestamp`,
which on the existing-application path was never assigned (it is set only in
the new-application branch), so instead of scheduling the scorer and
returning the record, the request dies with HTTP 500 from the converted
`UnboundLocalError`.  On the application-creating path with a null score the
handler does schedule the scorer and return the record, as the claim says. -/
theorem c2_reactivation_raises_unbound_local :
    apply_to_job (some { id := 7, status := "withdrawn", match_score := none })
        none none 8 3 =
      .error { status_code := 500,
               detail := "Failed to create/update application: cannot access local variable cv_file_timestamp" } ∧
      (∃ r, apply_to_job none none (some "20240101") 8 3 = .ok r ∧
        r.application = { id := 8, status := "applied", match_score := none } ∧
        r.scheduled = [BgTask.calcMatch 8 3 (some "20240101")]) := by
  constructor
  · rfl
  · exact ⟨_, rfl, rfl, rfl⟩

end TalentMatcher
